import Mathlib

/-!
Shallow embedding of the shipment-api repository's core:
the shipment lifecycle engine and authorization checks
(src/unnamed/part_006, the ShipmentService), the shipment model hooks
(src/models/Shipment.js), and the user service (src/services/user.service.js,
src/unnamed/part_004 being the User model).

Machine-level collaborators (Mongo store, bcrypt, Date) are modelled
explicitly: the store is a list of documents, time is a Nat passed in,
and the hash is an injective tagging function.  Mongoose semantics that
matter here: setting a document field to an equal value does not mark the
path modified, so the pre-save status hook fires exactly when the new
status differs from the loaded one; a save hook push appends after the
service's own push.
-/

namespace ShipTrack

/-- Character-wise lowercase map; model of JavaScript's
String.prototype.toLowerCase as used by the User model (emails). -/
def toLowerStr (s : String) : String := ⟨s.data.map Char.toLower⟩

/-- Character-wise uppercase map; model of JavaScript's
String.prototype.toUpperCase and of the mongoose uppercase:true cast
on trackingNumber. -/
def toUpperStr (s : String) : String := ⟨s.data.map Char.toUpper⟩

/-- SHIPMENT_STATUS enum from src/utils/enums. -/
inductive ShipmentStatus
  | pending
  | in_transit
  | delivered
  | cancelled
deriving DecidableEq, Repr

/-- String value of each SHIPMENT_STATUS member, as in src/utils/enums. -/
def statusStr : ShipmentStatus → String
  | .pending => "pending"
  | .in_transit => "in_transit"
  | .delivered => "delivered"
  | .cancelled => "cancelled"

/-- HttpError factory results from src/utils/httpError.js, by constructor used. -/
inductive HttpErr
  | badRequest (msg : String)
  | unauthorized (msg : String)
  | forbidden (msg : String)
  | notFound (msg : String)
  | conflict (msg : String)
deriving DecidableEq, Repr

/-- statusCode assigned by each HttpError factory (src/utils/httpError.js). -/
def HttpErr.statusCode : HttpErr → Nat
  | .badRequest _ => 400
  | .unauthorized _ => 401
  | .forbidden _ => 403
  | .notFound _ => 404
  | .conflict _ => 409

/-- One entry of the statusHistory array (src/models/Shipment.js, statusHistory
subdocument: status, changedAt, changedBy, notes). -/
structure HistoryEntry where
  status : ShipmentStatus
  changedAt : Nat
  changedBy : String
  notes : Option String
deriving DecidableEq, Repr

/-- One attachment subdocument (src/models/Shipment.js attachments). -/
structure Attachment where
  attId : String
  filename : String
  originalName : String
  storagePath : String
  mimetype : String
  size : Nat
  uploadedAt : Nat
deriving DecidableEq, Repr

/-- A shipment document (src/models/Shipment.js shipmentSchema), with the
internal _id as sid and Date fields as Nat. -/
structure Shipment where
  sid : String
  trackingNumber : String
  senderName : String
  receiverName : String
  origin : String
  destination : String
  status : ShipmentStatus
  weight : Option Nat
  description : Option String
  estimatedDelivery : Option Nat
  actualDelivery : Option Nat
  attachments : List Attachment
  statusHistory : List HistoryEntry
  createdBy : String
  updatedBy : Option String
  createdAt : Nat
deriving DecidableEq, Repr

/-- The validTransitions table of ShipmentService.validateStatusTransition
(src/unnamed/part_006). -/
def validTransitions : ShipmentStatus → List ShipmentStatus
  | .pending => [.in_transit, .cancelled]
  | .in_transit => [.delivered, .cancelled]
  | .delivered => []
  | .cancelled => []

/-- The message built by validateStatusTransition's HttpError.badRequest
(template string with both statuses). -/
def transitionErrMsg (currentStatus newStatus : ShipmentStatus) : String :=
  "Cannot transition from " ++ statusStr currentStatus ++ " to " ++ statusStr newStatus

/-- ShipmentService.validateStatusTransition (src/unnamed/part_006):
equal statuses return without error; otherwise the pair must be in the
validTransitions table, else HttpError.badRequest is thrown. -/
def validateStatusTransition (currentStatus newStatus : ShipmentStatus) :
    Except HttpErr Unit :=
  if currentStatus = newStatus then .ok ()
  else if newStatus ∈ validTransitions currentStatus then .ok ()
  else .error (.badRequest (transitionErrMsg currentStatus newStatus))

/-- The shipmentSchema.pre save hook on status (src/models/Shipment.js
lines 156-170): when the status path was marked modified, push a history
entry (changedBy = updatedBy or createdBy, no notes) and, if the status is
delivered and actualDelivery is unset, set actualDelivery to now. -/
def statusSaveHook (s : Shipment) (statusModified : Bool) (now : Nat) : Shipment :=
  if statusModified then
    let s1 := { s with statusHistory := s.statusHistory ++
      [{ status := s.status, changedAt := now,
         changedBy := s.updatedBy.getD s.createdBy, notes := none }] }
    if s1.status = .delivered ∧ s1.actualDelivery = none then
      { s1 with actualDelivery := some now }
    else s1
  else s

/-- Payload accepted by the shipment create validation schema
(src/utils/validations: shipmentValidation.create; trackingNumber is not
accepted there and the service adds createdBy/statusHistory itself). -/
structure ShipmentInput where
  senderName : String
  receiverName : String
  origin : String
  destination : String
  status : Option ShipmentStatus
  weight : Option Nat
  description : Option String
  estimatedDelivery : Option Nat
deriving DecidableEq, Repr

/-- ShipmentService.createShipment (src/unnamed/part_006) composed with the
model save hooks: the service spreads the input, sets createdBy and an
initial statusHistory entry (status = input status or pending, changedBy =
the creator), and the save hook fires iff the status path was explicitly
set on the new document (mongoose marks constructor-set paths modified,
defaults not).  sid is the store-assigned _id and tn the generated
tracking number (uppercased by the schema cast). -/
def createShipment (input : ShipmentInput) (sid tn userId : String) (now : Nat) :
    Shipment :=
  let st := input.status.getD .pending
  let base : Shipment :=
    { sid := sid, trackingNumber := toUpperStr tn,
      senderName := input.senderName, receiverName := input.receiverName,
      origin := input.origin, destination := input.destination,
      status := st, weight := input.weight, description := input.description,
      estimatedDelivery := input.estimatedDelivery, actualDelivery := none,
      attachments := [],
      statusHistory := [{ status := st, changedAt := now, changedBy := userId,
                          notes := none }],
      createdBy := userId, updatedBy := none, createdAt := now }
  statusSaveHook base input.status.isSome now

/-- A concrete creation payload without an explicit status. -/
def inputFix : ShipmentInput :=
  { senderName := "John Doe", receiverName := "Jane Smith", origin := "Lagos",
    destination := "Abuja", status := none, weight := none,
    description := none, estimatedDelivery := none }

/-- The concrete shipment created from inputFix by user u1 with generated
tracking number tn2. -/
def shipCreated : Shipment := createShipment inputFix "s2" "tn2" "u1" 5

/-- Model.findById over the store list. -/
def findById (store : List Shipment) (id : String) : Option Shipment :=
  store.find? (fun s => s.sid == id)

/-- shipmentSchema.statics.findByTrackingNumber (src/models/Shipment.js):
findOne by the uppercased tracking number. -/
def findByTrackingNumber (store : List Shipment) (trackingNumber : String) :
    Option Shipment :=
  store.find? (fun s => s.trackingNumber == toUpperStr trackingNumber)

/-- ShipmentService.getShipmentById (src/unnamed/part_006): not-found check,
then the authorization conditional, which additionally tests that userId is
truthy before comparing it with createdBy. -/
def getShipmentById (store : List Shipment) (id : String) (userId : Option String)
    (isAdmin : Bool) : Except HttpErr Shipment :=
  match findById store id with
  | none => .error (.notFound "Shipment not found")
  | some shipment =>
    if !isAdmin && (match userId with
        | some uid => shipment.createdBy != uid
        | none => false) then
      .error (.forbidden "You do not have access to this shipment")
    else .ok shipment

/-- ShipmentService.getShipmentByTrackingNumber (src/unnamed/part_006):
lookup and not-found check only; no ownership or role check is performed. -/
def getShipmentByTrackingNumber (store : List Shipment) (trackingNumber : String) :
    Except HttpErr Shipment :=
  match findByTrackingNumber store trackingNumber with
  | none => .error (.notFound "Shipment not found")
  | some shipment => .ok shipment

/-- Payload accepted by the shipment update validation schema
(src/utils/validations: shipmentValidation.update; trackingNumber is
stripped there, and the service destructures away trackingNumber,
createdBy and statusHistory before Object.assign). -/
structure ShipmentUpdate where
  senderName : Option String
  receiverName : Option String
  origin : Option String
  destination : Option String
  status : Option ShipmentStatus
  weight : Option Nat
  description : Option String
  estimatedDelivery : Option Nat
deriving DecidableEq, Repr

/-- ShipmentService.updateShipment (src/unnamed/part_006) composed with the
save hook: ownership check, drop the protected fields, Object.assign of the
remaining payload (status included), set updatedBy, save. -/
def updateShipment (s : Shipment) (upd : ShipmentUpdate) (userId : String)
    (isAdmin : Bool) (now : Nat) : Except HttpErr Shipment :=
  if !isAdmin && s.createdBy != userId then
    .error (.forbidden "You do not have access to this shipment")
  else
    let newStatus := upd.status.getD s.status
    let statusModified := newStatus != s.status
    let s1 := { s with
      senderName := upd.senderName.getD s.senderName,
      receiverName := upd.receiverName.getD s.receiverName,
      origin := upd.origin.getD s.origin,
      destination := upd.destination.getD s.destination,
      status := newStatus,
      weight := upd.weight.orElse (fun _ => s.weight),
      description := upd.description.orElse (fun _ => s.description),
      estimatedDelivery := upd.estimatedDelivery.orElse (fun _ => s.estimatedDelivery),
      updatedBy := some userId }
    .ok (statusSaveHook s1 statusModified now)

/-- ShipmentService.updateStatus (src/unnamed/part_006) composed with the
save hook: ownership check, validateStatusTransition, set status and
updatedBy, push the service history entry carrying the caller's notes,
save (the hook pushes its own entry iff the status value changed). -/
def updateStatus (s : Shipment) (status : ShipmentStatus) (userId : String)
    (notes : String) (isAdmin : Bool) (now : Nat) : Except HttpErr Shipment :=
  if !isAdmin && s.createdBy != userId then
    .error (.forbidden "You do not have access to this shipment")
  else
    match validateStatusTransition s.status status with
    | .error e => .error e
    | .ok _ =>
      let statusModified := s.status != status
      let s1 := { s with
        status := status
        updatedBy := some userId
        statusHistory := s.statusHistory ++
          [{ status := status, changedAt := now, changedBy := userId,
             notes := some notes }] }
      .ok (statusSaveHook s1 statusModified now)

/-- The document produced by an accepted non-self status transition: the
service entry (with notes), then the hook entry (without), then the
conditional actualDelivery stamp.  Characterizes updateStatus's success
value (proved below). -/
def afterAccepted (s : Shipment) (new : ShipmentStatus) (uid notes : String)
    (now : Nat) : Shipment :=
  let s2 : Shipment := { s with
    status := new
    updatedBy := some uid
    statusHistory := s.statusHistory ++
      [{ status := new, changedAt := now, changedBy := uid,
         notes := some notes },
       { status := new, changedAt := now, changedBy := uid,
         notes := none }] }
  if new = .delivered ∧ s.actualDelivery = none then
    { s2 with actualDelivery := some now }
  else s2

/-- A concrete pending shipment owned by user u1, with the single creation
history entry, used to instantiate hypotheses of the claim theorems. -/
def shipFix : Shipment :=
  { sid := "s1", trackingNumber := "TN1", senderName := "John Doe",
    receiverName := "Jane Smith", origin := "Lagos", destination := "Abuja",
    status := .pending, weight := none, description := none,
    estimatedDelivery := none, actualDelivery := none, attachments := [],
    statusHistory := [{ status := .pending, changedAt := 5, changedBy := "u1",
                        notes := none }],
    createdBy := "u1", updatedBy := none, createdAt := 5 }

/-- The concrete shipment shipFix with status delivered and a delivery date. -/
def shipDelivered : Shipment :=
  { shipFix with status := .delivered, actualDelivery := some 7 }

/-- The concrete shipment shipFix with status in_transit. -/
def shipInTransit : Shipment :=
  { shipFix with status := .in_transit }

/-- A concrete generic-update payload whose only field is status = pending. -/
def updFix : ShipmentUpdate :=
  { senderName := none, receiverName := none, origin := none,
    destination := none, status := some .pending, weight := none,
    description := none, estimatedDelivery := none }

/-- ShipmentService.deleteShipment (src/unnamed/part_006): not-found check,
ownership check, then the non-admin state guard (only pending or cancelled
may be deleted), then findByIdAndDelete. -/
def deleteShipment (store : List Shipment) (id : String) (userId : String)
    (isAdmin : Bool) : Except HttpErr (List Shipment) :=
  match findById store id with
  | none => .error (.notFound "Shipment not found")
  | some shipment =>
    if !isAdmin && shipment.createdBy != userId then
      .error (.forbidden "You do not have access to this shipment")
    else if !isAdmin && !(shipment.status == .pending) && !(shipment.status == .cancelled) then
      .error (.badRequest "Can only delete pending or cancelled shipments")
    else .ok (store.filter (fun s => !(s.sid == id)))

/-- ShipmentService.addAttachment (src/unnamed/part_006): ownership check,
push the attachment, set updatedBy, save (status untouched, so the status
save hook does not fire). -/
def addAttachment (s : Shipment) (a : Attachment) (userId : String)
    (isAdmin : Bool) (now : Nat) : Except HttpErr Shipment :=
  if !isAdmin && s.createdBy != userId then
    .error (.forbidden "You do not have access to this shipment")
  else
    .ok (statusSaveHook
      { s with attachments := s.attachments ++ [a], updatedBy := some userId }
      false now)

/-- ShipmentService.removeAttachment (src/unnamed/part_006): ownership
check, findIndex by attachment _id, NotFound when absent, splice out the
entry, set updatedBy, save. -/
def removeAttachment (s : Shipment) (attachmentId : String) (userId : String)
    (isAdmin : Bool) (now : Nat) : Except HttpErr Shipment :=
  if !isAdmin && s.createdBy != userId then
    .error (.forbidden "You do not have access to this shipment")
  else
    match s.attachments.findIdx? (fun att => att.attId == attachmentId) with
    | none => .error (.notFound "Attachment not found")
    | some i =>
      .ok (statusSaveHook
        { s with attachments := s.attachments.eraseIdx i, updatedBy := some userId }
        false now)

/-- The field subset selected by ShipmentService.trackShipment
(src/unnamed/part_006 line 318: trackingNumber senderName receiverName
origin destination status statusHistory estimatedDelivery actualDelivery
createdAt). -/
structure TrackView where
  trackingNumber : String
  senderName : String
  receiverName : String
  origin : String
  destination : String
  status : ShipmentStatus
  statusHistory : List HistoryEntry
  estimatedDelivery : Option Nat
  actualDelivery : Option Nat
  createdAt : Nat
deriving DecidableEq, Repr

/-- The select projection applied by trackShipment. -/
def trackProject (s : Shipment) : TrackView :=
  { trackingNumber := s.trackingNumber, senderName := s.senderName,
    receiverName := s.receiverName, origin := s.origin,
    destination := s.destination, status := s.status,
    statusHistory := s.statusHistory,
    estimatedDelivery := s.estimatedDelivery,
    actualDelivery := s.actualDelivery, createdAt := s.createdAt }

/-- ShipmentService.trackShipment (src/unnamed/part_006): public lookup by
tracking number, returning the selected field subset. -/
def trackShipment (store : List Shipment) (trackingNumber : String) :
    Except HttpErr TrackView :=
  match findByTrackingNumber store trackingNumber with
  | none => .error (.notFound "Shipment not found")
  | some shipment => .ok (trackProject shipment)

/-- All user ids carried by a track view: the changedBy field of each
statusHistory entry (the only id-valued data in the view type). -/
def TrackView.userIds (v : TrackView) : List String :=
  v.statusHistory.map (fun e => e.changedBy)

/-- Error classifier: does a service result carry a Forbidden (403) error. -/
def isForbidden {α : Type} : Except HttpErr α → Bool
  | .error (.forbidden _) => true
  | _ => false

/-- Modelled from the spec: the Authorization Policy decision function
canAccess(actor, resourceOwnerId, action) of spec section 4.1, which the
code keeps as inline conditionals rather than a named function: admin is
always permitted; a non-admin is permitted iff their id equals the
resource owner's id. -/
def canAccess (actorIsAdmin : Bool) (actorId resourceOwnerId : String) : Bool :=
  actorIsAdmin || actorId == resourceOwnerId

/-- USER_ROLES enum from src/utils/enums. -/
inductive Role
  | admin
  | user
  | manager
deriving DecidableEq, Repr

/-- A user document (src/unnamed/part_004 userSchema), with _id as uid.
The schema lowercases email on save and stores the bcrypt hash of the
password. -/
structure User where
  uid : String
  name : String
  email : String
  passwordHash : String
  role : Role
  isActive : Bool
  lastLogin : Option Nat
deriving DecidableEq, Repr

/-- Model of the opaque hashing collaborator: hash(password) -> hash,
injective tagging. -/
def hashPassword (password : String) : String := "bcrypt$" ++ password

/-- userSchema.methods.comparePassword (src/unnamed/part_004): the
collaborator's verify(hash, candidate) -> bool. -/
def comparePassword (u : User) (candidate : String) : Bool :=
  u.passwordHash == hashPassword candidate

/-- userSchema.statics.findByEmail (src/unnamed/part_004): findOne by the
lowercased email; stored emails are lowercased by the schema.  The login
query findOne on email.toLowerCase() is the same lookup. -/
def findByEmail (users : List User) (email : String) : Option User :=
  users.find? (fun u => u.email == toLowerStr email)

/-- UserService.register (src/services/user.service.js): conflict when
findByEmail hits, else create the user (schema: email lowercased, password
hashed, role defaults to user, isActive defaults to true); uid is the
store-assigned _id. -/
def register (users : List User) (uid name email password : String) :
    Except HttpErr (List User × User) :=
  match findByEmail users email with
  | some _ => .error (.conflict "Email already registered")
  | none =>
    let u : User :=
      { uid := uid, name := name, email := toLowerStr email,
        passwordHash := hashPassword password, role := .user,
        isActive := true, lastLogin := none }
    .ok (users ++ [u], u)

/-- UserService.login (src/services/user.service.js): find by lowercased
email (unauthorized when absent), then the isActive check (forbidden),
then comparePassword (unauthorized), then set lastLogin and save. -/
def login (users : List User) (email password : String) (now : Nat) :
    Except HttpErr (List User × User) :=
  match findByEmail users email with
  | none => .error (.unauthorized "Invalid email or password")
  | some u =>
    if !u.isActive then .error (.forbidden "Account is deactivated")
    else if !(comparePassword u password) then
      .error (.unauthorized "Invalid email or password")
    else
      let u1 := { u with lastLogin := some now }
      .ok (users.map (fun x => if x.uid == u.uid then u1 else x), u1)

/-- BaseService.updateById as used by activateUser and deactivateUser
(src/services/user.service.js): set the isActive flag on the user with the
given id. -/
def setActive (users : List User) (userId : String) (active : Bool) : List User :=
  users.map (fun u => if u.uid == userId then { u with isActive := active } else u)

/-- UserService.activateUser (src/services/user.service.js). -/
def activateUser (users : List User) (userId : String) : List User :=
  setActive users userId true

/-- UserService.deactivateUser (src/services/user.service.js). -/
def deactivateUser (users : List User) (userId : String) : List User :=
  setActive users userId false

/-- A concrete registered user (the document produced by registering with
email A@B.c and password pw). -/
def regU : User :=
  { uid := "id1", name := "N", email := "a@b.c",
    passwordHash := hashPassword "pw", role := .user, isActive := true,
    lastLogin := none }

/-- The concrete user regU with the active flag cleared. -/
def regUInactive : User := { regU with isActive := false }

/-! ## Helper lemmas about the lifecycle operations -/

/-- The ownership conditional evaluates to false for an admin or the owner. -/
theorem authCond_false {admin : Bool} {createdBy uid : String}
    (hauth : admin = true ∨ createdBy = uid) :
    (!admin && createdBy != uid) = false := by
  rcases hauth with h | h
  · simp [h]
  · simp [h]

/-- Normal form of updateStatus on a self transition: the ownership check
passes, validation returns early, and only the service's history entry is
appended (the status path is not modified, so the save hook is inert). -/
theorem updateStatus_self (s : Shipment) (uid notes : String) (admin : Bool)
    (now : Nat) (hauth : admin = true ∨ s.createdBy = uid) :
    updateStatus s s.status uid notes admin now =
      .ok { s with
        updatedBy := some uid
        statusHistory := s.statusHistory ++
          [{ status := s.status, changedAt := now, changedBy := uid,
             notes := some notes }] } := by
  simp [updateStatus, authCond_false hauth, validateStatusTransition, statusSaveHook]

/-- Normal form of updateStatus on an accepted non-self transition: the
service appends its entry with the caller's notes, the save hook appends a
second entry without notes, and actualDelivery is set iff the new status
is delivered and it was unset. -/
theorem updateStatus_accepted (s : Shipment) (new : ShipmentStatus)
    (uid notes : String) (admin : Bool) (now : Nat)
    (hauth : admin = true ∨ s.createdBy = uid)
    (hne : s.status ≠ new) (hmem : new ∈ validTransitions s.status) :
    updateStatus s new uid notes admin now =
      .ok (afterAccepted s new uid notes now) := by
  have hne2 : (s.status != new) = true := by simp [hne]
  by_cases hd : new = ShipmentStatus.delivered ∧ s.actualDelivery = none
  · obtain ⟨hd1, hd2⟩ := hd
    subst hd1
    simp [updateStatus, authCond_false hauth, validateStatusTransition, hne,
      hmem, statusSaveHook, hne2, afterAccepted, hd2]
  · simp only [updateStatus, authCond_false hauth, Bool.false_eq_true,
      if_false, validateStatusTransition, if_neg hne, if_pos hmem,
      statusSaveHook, hne2, if_true, afterAccepted]
    rw [if_neg (by simpa using hd), if_neg (by simpa using hd)]
    simp

/-- Field facts about afterAccepted used when composing transitions. -/
theorem afterAccepted_fields (s : Shipment) (new : ShipmentStatus)
    (uid notes : String) (now : Nat) :
    (afterAccepted s new uid notes now).status = new ∧
    (afterAccepted s new uid notes now).createdBy = s.createdBy ∧
    ((new = .delivered ∧ s.actualDelivery = none) →
      (afterAccepted s new uid notes now).actualDelivery = some now) ∧
    (¬ (new = .delivered ∧ s.actualDelivery = none) →
      (afterAccepted s new uid notes now).actualDelivery = s.actualDelivery) := by
  by_cases hd : new = ShipmentStatus.delivered ∧ s.actualDelivery = none
  · simp [afterAccepted, hd]
  · simp [afterAccepted, hd]

/-- Normal form of updateStatus on a rejected transition. -/
theorem updateStatus_rejected (s : Shipment) (new : ShipmentStatus)
    (uid notes : String) (admin : Bool) (now : Nat)
    (hauth : admin = true ∨ s.createdBy = uid)
    (hne : s.status ≠ new) (hmem : new ∉ validTransitions s.status) :
    updateStatus s new uid notes admin now =
      .error (.badRequest (transitionErrMsg s.status new)) := by
  simp [updateStatus, authCond_false hauth, validateStatusTransition, hne, hmem]

/-! ## C1 -/

/-- C1: with current status different from the requested one, the
status-change operation (as an authorized actor) succeeds exactly when the
pair is an edge of the transition table; any other unequal pair is
rejected with the 400 InvalidTransition error carrying both statuses; in
particular a direct pending-to-delivered request is rejected, while
pending-to-in_transit followed by in_transit-to-delivered succeeds and
sets actualDelivery. -/
theorem C1_status_transition_table (s : Shipment) (new : ShipmentStatus)
    (uid notes : String) (admin : Bool) (now : Nat)
    (hauth : admin = true ∨ s.createdBy = uid) (hne : s.status ≠ new) :
    ((∃ s', updateStatus s new uid notes admin now = .ok s') ↔
      new ∈ validTransitions s.status) ∧
    (new ∉ validTransitions s.status →
      updateStatus s new uid notes admin now =
        .error (.badRequest (transitionErrMsg s.status new)) ∧
      (HttpErr.badRequest (transitionErrMsg s.status new)).statusCode = 400) ∧
    (s.status = .pending → new = .delivered →
      updateStatus s new uid notes admin now =
        .error (.badRequest (transitionErrMsg .pending .delivered))) ∧
    (s.status = .pending → ∀ t2 : Nat,
      ∃ s1 s2, updateStatus s .in_transit uid notes admin now = .ok s1 ∧
        updateStatus s1 .delivered uid notes admin t2 = .ok s2 ∧
        s2.status = .delivered ∧
        (s.actualDelivery = none → s2.actualDelivery = some t2)) := by
  refine ⟨?_, ?_, ?_, ?_⟩
  · constructor
    · rintro ⟨s', hs'⟩
      by_contra hmem
      rw [updateStatus_rejected s new uid notes admin now hauth hne hmem] at hs'
      exact Except.noConfusion hs'
    · intro hmem
      exact ⟨_, updateStatus_accepted s new uid notes admin now hauth hne hmem⟩
  · intro hmem
    exact ⟨updateStatus_rejected s new uid notes admin now hauth hne hmem, rfl⟩
  · intro hcur hnew
    subst hnew
    rw [updateStatus_rejected s .delivered uid notes admin now hauth hne
      (by rw [hcur]; decide)]
    rw [hcur]
  · intro hcur t2
    have hst : ShipmentStatus.in_transit ∈ validTransitions s.status := by
      rw [hcur]; decide
    have hne1 : s.status ≠ ShipmentStatus.in_transit := by rw [hcur]; decide
    have h1 := updateStatus_accepted s .in_transit uid notes admin now hauth
      hne1 hst
    have hf := afterAccepted_fields s .in_transit uid notes now
    have hAD1 : (afterAccepted s .in_transit uid notes now).actualDelivery =
        s.actualDelivery := hf.2.2.2 (by simp)
    have hauth2 : admin = true ∨
        (afterAccepted s .in_transit uid notes now).createdBy = uid := by
      rcases hauth with h | h
      · exact Or.inl h
      · exact Or.inr (by rw [hf.2.1, h])
    have h2 := updateStatus_accepted (afterAccepted s .in_transit uid notes now)
      .delivered uid notes admin t2 hauth2 (by rw [hf.1]; decide)
      (by rw [hf.1]; decide)
    have hf2 := afterAccepted_fields (afterAccepted s .in_transit uid notes now)
      .delivered uid notes t2
    refine ⟨_, _, h1, h2, hf2.1, fun hAD => ?_⟩
    exact hf2.2.2.1 ⟨rfl, by rw [hAD1, hAD]⟩

/-- C1 witness: the theorem applied to the concrete pending shipment and a
direct delivered request by its owner, yielding the concrete rejection. -/
theorem C1_status_transition_table_witness :
    updateStatus shipFix .delivered "u1" "note" false 9 =
      .error (.badRequest (transitionErrMsg shipFix.status .delivered)) ∧
    (HttpErr.badRequest (transitionErrMsg shipFix.status .delivered)).statusCode = 400 :=
  (C1_status_transition_table shipFix .delivered "u1" "note" false 9
    (Or.inr rfl) (by decide)).2.1 (by decide)

/-- The ownership conditional is false exactly for an admin or the owner. -/
theorem authCond_false_iff (admin : Bool) (createdBy uid : String) :
    (!admin && createdBy != uid) = false ↔ (admin = true ∨ createdBy = uid) := by
  cases admin <;> simp

/-- validateStatusTransition returns either success or the badRequest error
carrying both statuses; no other outcome exists. -/
theorem validateStatusTransition_cases (c n : ShipmentStatus) :
    validateStatusTransition c n = .ok () ∨
    validateStatusTransition c n = .error (.badRequest (transitionErrMsg c n)) := by
  by_cases h1 : c = n
  · left; simp [validateStatusTransition, h1]
  · by_cases h2 : n ∈ validTransitions c
    · left; simp [validateStatusTransition, h1, h2]
    · right; simp [validateStatusTransition, h1, h2]

/-- The history produced by an accepted transition: the two appended entries. -/
theorem afterAccepted_statusHistory (s : Shipment) (new : ShipmentStatus)
    (uid notes : String) (now : Nat) :
    (afterAccepted s new uid notes now).statusHistory = s.statusHistory ++
      [{ status := new, changedAt := now, changedBy := uid, notes := some notes },
       { status := new, changedAt := now, changedBy := uid, notes := none }] := by
  by_cases hd : new = ShipmentStatus.delivered ∧ s.actualDelivery = none
  · simp [afterAccepted, hd]
  · simp [afterAccepted, hd]

/-! ## C2 -/

/-- C2 counterexample: on the concrete pending shipment, an owner's
status-change request for the current status succeeds but grows
statusHistory from 1 to 2 entries, refuting the claim that the shipment
and in particular its history length are unchanged. -/
theorem C2_self_transition_counterexample :
    ∃ s', updateStatus shipFix shipFix.status "u1" "" false 9 = .ok s' ∧
      s'.statusHistory.length = 2 ∧
      s'.statusHistory.length ≠ shipFix.statusHistory.length := by
  refine ⟨_, rfl, by decide, by decide⟩

/-- C2 (amended): a status-change request whose requested status equals the
current one always succeeds for an authorized actor and leaves status and
actualDelivery unchanged, but it sets updatedBy and appends exactly one
history entry (the service push is unconditional), so statusHistory length
grows by one rather than staying unchanged. -/
theorem C2_self_transition (s : Shipment) (uid notes : String) (admin : Bool)
    (now : Nat) (hauth : admin = true ∨ s.createdBy = uid) :
    ∃ s', updateStatus s s.status uid notes admin now = .ok s' ∧
      s'.status = s.status ∧
      s'.actualDelivery = s.actualDelivery ∧
      s'.statusHistory = s.statusHistory ++
        [{ status := s.status, changedAt := now, changedBy := uid,
           notes := some notes }] ∧
      s'.statusHistory.length = s.statusHistory.length + 1 := by
  refine ⟨_, updateStatus_self s uid notes admin now hauth, rfl, rfl, rfl, by simp⟩

/-- C2 witness: the amended theorem applied to the concrete pending
shipment and its owner. -/
theorem C2_self_transition_witness :
    ∃ s', updateStatus shipFix shipFix.status "u1" "note" false 9 = .ok s' ∧
      s'.status = shipFix.status ∧
      s'.actualDelivery = shipFix.actualDelivery ∧
      s'.statusHistory = shipFix.statusHistory ++
        [{ status := shipFix.status, changedAt := 9, changedBy := "u1",
           notes := some "note" }] ∧
      s'.statusHistory.length = shipFix.statusHistory.length + 1 :=
  C2_self_transition shipFix "u1" "note" false 9 (Or.inr rfl)

/-! ## C3 -/

/-- C3 counterexample: on the concrete pending shipment, the accepted
transition to in_transit appends two history entries (the service entry
with notes and the model hook's entry without), growing the history from 1
to 3 entries, refuting the claim that exactly one entry is appended. -/
theorem C3_accepted_append_counterexample :
    ∃ s', updateStatus shipFix .in_transit "u1" "picked up" false 9 = .ok s' ∧
      s'.statusHistory.length = 3 ∧
      s'.statusHistory.length ≠ shipFix.statusHistory.length + 1 := by
  refine ⟨_, rfl, by decide, by decide⟩

/-- C3 (amended): every accepted non-self status transition appends exactly
two history entries — first the service entry with status = new status,
changed-at = now, changed-by = actor id and the caller's notes, then the
model hook's entry identical except without notes — so the history grows
by exactly 2; all previous entries are unchanged, and if the new status is
delivered while actualDelivery is unset then actualDelivery is set to now
(and is untouched otherwise). -/
theorem C3_accepted_transition_history (s : Shipment) (new : ShipmentStatus)
    (uid notes : String) (admin : Bool) (now : Nat)
    (hauth : admin = true ∨ s.createdBy = uid)
    (hne : s.status ≠ new) (hmem : new ∈ validTransitions s.status) :
    ∃ s', updateStatus s new uid notes admin now = .ok s' ∧
      s'.statusHistory = s.statusHistory ++
        [{ status := new, changedAt := now, changedBy := uid,
           notes := some notes },
         { status := new, changedAt := now, changedBy := uid, notes := none }] ∧
      s'.statusHistory.length = s.statusHistory.length + 2 ∧
      s'.status = new ∧
      ((new = .delivered ∧ s.actualDelivery = none) →
        s'.actualDelivery = some now) ∧
      (¬ (new = .delivered ∧ s.actualDelivery = none) →
        s'.actualDelivery = s.actualDelivery) := by
  have hf := afterAccepted_fields s new uid notes now
  refine ⟨_, updateStatus_accepted s new uid notes admin now hauth hne hmem,
    afterAccepted_statusHistory s new uid notes now, ?_, hf.1, hf.2.2.1, hf.2.2.2⟩
  rw [afterAccepted_statusHistory s new uid notes now]
  simp

/-- C3 witness: the amended theorem applied to the concrete pending
shipment, its owner, and the accepted transition to in_transit. -/
theorem C3_accepted_transition_history_witness :
    ∃ s', updateStatus shipFix .in_transit "u1" "go" false 9 = .ok s' ∧
      s'.statusHistory = shipFix.statusHistory ++
        [{ status := .in_transit, changedAt := 9, changedBy := "u1",
           notes := some "go" },
         { status := .in_transit, changedAt := 9, changedBy := "u1",
           notes := none }] ∧
      s'.statusHistory.length = shipFix.statusHistory.length + 2 ∧
      s'.status = .in_transit ∧
      ((ShipmentStatus.in_transit = .delivered ∧ shipFix.actualDelivery = none) →
        s'.actualDelivery = some 9) ∧
      (¬ (ShipmentStatus.in_transit = .delivered ∧ shipFix.actualDelivery = none) →
        s'.actualDelivery = shipFix.actualDelivery) :=
  C3_accepted_transition_history shipFix .in_transit "u1" "go" false 9
    (Or.inr rfl) (by decide) (by decide)

/-! ## C4 -/

/-- C4 counterexample: on the concrete delivered shipment, the generic
update operation run by its owner with a payload containing status =
pending succeeds and moves the status out of the terminal delivered state
(the service strips only trackingNumber, createdBy and statusHistory, not
status, and no transition validation runs), refuting the claim that no
operation ever changes a terminal status. -/
theorem C4_terminal_counterexample :
    shipDelivered.status = .delivered ∧
    (∃ s', updateShipment shipDelivered updFix "u1" false 9 = .ok s' ∧
      s'.status = .pending ∧ s'.status ≠ shipDelivered.status) := by
  refine ⟨rfl, _, rfl, by decide, by decide⟩

/-- C4 (amended): for a shipment whose status is delivered or cancelled,
the status-change operation and the attachment add/remove operations never
change the status (the transition table has no outgoing edges, and
attachment mutation does not touch status); the generic update operation,
however, is not covered by this guarantee, as it can set status directly
without transition validation. -/
theorem C4_terminal_lifecycle (s : Shipment)
    (hterm : s.status = .delivered ∨ s.status = .cancelled) :
    (∀ (new : ShipmentStatus) (uid notes : String) (admin : Bool) (now : Nat)
       (s' : Shipment),
       updateStatus s new uid notes admin now = .ok s' → s'.status = s.status) ∧
    (∀ (a : Attachment) (uid : String) (admin : Bool) (now : Nat) (s' : Shipment),
       addAttachment s a uid admin now = .ok s' → s'.status = s.status) ∧
    (∀ (attId uid : String) (admin : Bool) (now : Nat) (s' : Shipment),
       removeAttachment s attId uid admin now = .ok s' → s'.status = s.status) := by
  have hmemAll : ∀ new : ShipmentStatus, new ∉ validTransitions s.status := by
    rcases hterm with h | h <;> rw [h] <;> intro new hn <;> simp [validTransitions] at hn
  refine ⟨?_, ?_, ?_⟩
  · intro new uid notes admin now s' h
    by_cases hc : (!admin && s.createdBy != uid) = true
    · simp [updateStatus, hc] at h
    · have hauth := (authCond_false_iff admin s.createdBy uid).mp
        (by simpa using hc)
      by_cases hnew : s.status = new
      · subst hnew
        rw [updateStatus_self s uid notes admin now hauth] at h
        simp only [Except.ok.injEq] at h
        rw [← h]
      · rw [updateStatus_rejected s new uid notes admin now hauth hnew
          (hmemAll new)] at h
        exact Except.noConfusion h
  · intro a uid admin now s' h
    by_cases hc : (!admin && s.createdBy != uid) = true
    · simp [addAttachment, hc] at h
    · simp [addAttachment, hc, statusSaveHook] at h
      rw [← h]
  · intro attId uid admin now s' h
    by_cases hc : (!admin && s.createdBy != uid) = true
    · simp [removeAttachment, hc] at h
    · rcases hfi : s.attachments.findIdx? (fun att => att.attId == attId) with _ | i
      · simp [removeAttachment, hc, hfi] at h
      · simp [removeAttachment, hc, hfi, statusSaveHook] at h
        rw [← h]

/-- C4 witness: the amended theorem applied to the concrete delivered
shipment, on a self status-change request by its owner that succeeds and
keeps the status delivered. -/
theorem C4_terminal_lifecycle_witness :
    updateStatus shipDelivered .delivered "u1" "x" false 9 =
      .ok { shipDelivered with
        updatedBy := some "u1"
        statusHistory := shipDelivered.statusHistory ++
          [{ status := .delivered, changedAt := 9, changedBy := "u1",
             notes := some "x" }] } ∧
    ({ shipDelivered with
        updatedBy := some "u1"
        statusHistory := shipDelivered.statusHistory ++
          [{ status := .delivered, changedAt := 9, changedBy := "u1",
             notes := some "x" }] } : Shipment).status = shipDelivered.status :=
  ⟨rfl, (C4_terminal_lifecycle shipDelivered (Or.inl rfl)).1 .delivered "u1" "x"
    false 9 _ rfl⟩

/-! ## C5 -/

/-- C5 counterexample: the concrete shipment is owned by u1, so the policy
denies the non-admin actor u2; yet the authenticated read-by-tracking-number
operation, which takes no actor at all, returns the full shipment — the
ownership rule does not apply to this read path, refuting uniformity over
all shipment operations. -/
theorem C5_uniform_access_counterexample :
    canAccess false "u2" shipFix.createdBy = false ∧
    getShipmentByTrackingNumber [shipFix] "TN1" = .ok shipFix := by
  exact ⟨by decide, rfl⟩

/-- C5 (amended): the ownership rule — admin always permitted, non-admin
permitted iff their id equals the shipment's createdBy — governs exactly
the Forbidden outcome of read-by-id (given the authenticated actor's id),
generic update, status-change, delete and attachment add/remove; the
authenticated read-by-tracking-number operation performs no ownership
check and never returns Forbidden. -/
theorem C5_ownership_rule (s : Shipment) (uid : String) (admin : Bool) :
    (∀ (upd : ShipmentUpdate) (now : Nat),
      isForbidden (updateShipment s upd uid admin now) =
        (!admin && s.createdBy != uid)) ∧
    (∀ (st : ShipmentStatus) (notes : String) (now : Nat),
      isForbidden (updateStatus s st uid notes admin now) =
        (!admin && s.createdBy != uid)) ∧
    (∀ (a : Attachment) (now : Nat),
      isForbidden (addAttachment s a uid admin now) =
        (!admin && s.createdBy != uid)) ∧
    (∀ (attId : String) (now : Nat),
      isForbidden (removeAttachment s attId uid admin now) =
        (!admin && s.createdBy != uid)) ∧
    isForbidden (getShipmentById [s] s.sid (some uid) admin) =
      (!admin && s.createdBy != uid) ∧
    isForbidden (deleteShipment [s] s.sid uid admin) =
      (!admin && s.createdBy != uid) ∧
    (∀ (store : List Shipment) (tn : String),
      isForbidden (getShipmentByTrackingNumber store tn) = false) := by
  refine ⟨?_, ?_, ?_, ?_, ?_, ?_, ?_⟩
  · intro upd now
    by_cases hc : (!admin && s.createdBy != uid) = true
    · simp [updateShipment, hc, isForbidden]
    · have hc2 : (!admin && s.createdBy != uid) = false := by simpa using hc
      simp [updateShipment, hc2, isForbidden]
  · intro st notes now
    by_cases hc : (!admin && s.createdBy != uid) = true
    · simp [updateStatus, hc, isForbidden]
    · have hc2 : (!admin && s.createdBy != uid) = false := by simpa using hc
      rcases validateStatusTransition_cases s.status st with hv | hv <;>
        simp [updateStatus, hc2, hv, isForbidden]
  · intro a now
    by_cases hc : (!admin && s.createdBy != uid) = true
    · simp [addAttachment, hc, isForbidden]
    · have hc2 : (!admin && s.createdBy != uid) = false := by simpa using hc
      simp [addAttachment, hc2, isForbidden]
  · intro attId now
    by_cases hc : (!admin && s.createdBy != uid) = true
    · simp [removeAttachment, hc, isForbidden]
    · have hc2 : (!admin && s.createdBy != uid) = false := by simpa using hc
      rcases hfi : s.attachments.findIdx? (fun att => att.attId == attId)
        with _ | i <;> simp [removeAttachment, hc2, hfi, isForbidden]
  · have hfind : findById [s] s.sid = some s := by simp [findById]
    by_cases hc : (!admin && s.createdBy != uid) = true
    · simp [getShipmentById, hfind, hc, isForbidden]
    · have hc2 : (!admin && s.createdBy != uid) = false := by simpa using hc
      simp [getShipmentById, hfind, hc2, isForbidden]
  · have hfind : findById [s] s.sid = some s := by simp [findById]
    by_cases hc : (!admin && s.createdBy != uid) = true
    · simp [deleteShipment, hfind, hc, isForbidden]
    · have hc2 : (!admin && s.createdBy != uid) = false := by simpa using hc
      by_cases hst : (!admin && !(s.status == .pending) && !(s.status == .cancelled)) = true
      · simp [deleteShipment, hfind, hc2, hst, isForbidden]
      · have hst2 := (Bool.not_eq_true _).mp hst
        simp [deleteShipment, hfind, hc2, hst2, isForbidden]
  · intro store tn
    rcases hf : findByTrackingNumber store tn with _ | x <;>
      simp [getShipmentByTrackingNumber, hf, isForbidden]

/-! ## C6 -/

/-- C6: for a stored shipment, deletion by a non-admin owner succeeds
exactly when the status is pending or cancelled, otherwise it fails with
the 400 InvalidState error (and, the operation returning the error without
producing a new store, the stored shipment is untouched); deletion by an
admin succeeds regardless of status. -/
theorem C6_delete_rules (store : List Shipment) (id uid : String) (s : Shipment)
    (hfind : findById store id = some s) :
    (s.createdBy = uid →
      ((s.status = .pending ∨ s.status = .cancelled) →
        deleteShipment store id uid false =
          .ok (store.filter (fun x => !(x.sid == id)))) ∧
      (s.status ≠ .pending → s.status ≠ .cancelled →
        deleteShipment store id uid false =
          .error (.badRequest "Can only delete pending or cancelled shipments") ∧
        (HttpErr.badRequest
          "Can only delete pending or cancelled shipments").statusCode = 400)) ∧
    (∀ uidA : String, deleteShipment store id uidA true =
      .ok (store.filter (fun x => !(x.sid == id)))) := by
  constructor
  · intro hown
    constructor
    · intro hst
      rcases hst with h | h <;>
        simp [deleteShipment, hfind, hown, h]
    · intro hp hcl
      refine ⟨?_, rfl⟩
      simp [deleteShipment, hfind, hown, hp, hcl]
  · intro uidA
    simp [deleteShipment, hfind]

/-- C6 witness: the theorem applied to a store holding the concrete
in_transit shipment — the owner's delete is rejected with 400, the admin's
delete succeeds. -/
theorem C6_delete_rules_witness :
    deleteShipment [shipInTransit] "s1" "u1" false =
      .error (.badRequest "Can only delete pending or cancelled shipments") ∧
    deleteShipment [shipInTransit] "s1" "u1" true =
      .ok ([shipInTransit].filter (fun x => !(x.sid == "s1"))) :=
  ⟨(((C6_delete_rules [shipInTransit] "s1" "u1" shipInTransit rfl).1 rfl).2
      (by decide) (by decide)).1,
   (C6_delete_rules [shipInTransit] "s1" "u1" shipInTransit rfl).2 "u1"⟩

/-! ## C7 -/

/-- C7 counterexample: the service-created shipment shipCreated is owned
by u1, and the public track result for it carries u1 inside its status
history (the changedBy field of the creation entry), refuting the claim
that no user id of the owner appears anywhere in the returned data. -/
theorem C7_track_owner_counterexample :
    shipCreated.createdBy = "u1" ∧
    trackShipment [shipCreated] "tn2" = .ok (trackProject shipCreated) ∧
    "u1" ∈ (trackProject shipCreated).userIds := by
  refine ⟨rfl, rfl, by decide⟩

/-- C7 (amended): the public track result is exactly the projection onto
tracking number, names, origin/destination, status, status history and the
date fields — it has no createdBy field, and is unchanged when createdBy
changes — but the statusHistory it includes carries changedBy user ids,
and for every shipment created through the service the creator's id
appears there. -/
theorem C7_track_projection (store : List Shipment) (tn : String) (s : Shipment)
    (hfind : findByTrackingNumber store tn = some s) :
    trackShipment store tn = .ok (trackProject s) ∧
    (∀ c : String, trackProject { s with createdBy := c } = trackProject s) ∧
    (trackProject s).userIds = s.statusHistory.map (fun e => e.changedBy) ∧
    (∀ (input : ShipmentInput) (sid tn2 uid : String) (t : Nat),
      uid ∈ (trackProject (createShipment input sid tn2 uid t)).userIds) := by
  refine ⟨by simp [trackShipment, hfind], fun c => rfl, rfl, ?_⟩
  intro input sid tn2 uid t
  rcases hs : input.status with _ | v
  · simp [createShipment, hs, statusSaveHook, trackProject, TrackView.userIds]
  · by_cases hd : v = ShipmentStatus.delivered
    · simp [createShipment, hs, statusSaveHook, trackProject, TrackView.userIds, hd]
    · simp [createShipment, hs, statusSaveHook, trackProject, TrackView.userIds, hd]

/-- C7 witness: the amended theorem applied to the store holding the
concrete created shipment. -/
theorem C7_track_projection_witness :
    trackShipment [shipCreated] "tn2" = .ok (trackProject shipCreated) ∧
    trackProject { shipCreated with createdBy := "other" } =
      trackProject shipCreated :=
  ⟨(C7_track_projection [shipCreated] "tn2" shipCreated rfl).1,
   (C7_track_projection [shipCreated] "tn2" shipCreated rfl).2.1 "other"⟩

/-- findByEmail looks only at the email field, which setActive preserves,
so it commutes with setActive up to mapping the found user. -/
theorem findByEmail_setActive (users : List User) (id email : String) (b : Bool) :
    findByEmail (setActive users id b) email =
      (findByEmail users email).map
        (fun u => if u.uid == id then { u with isActive := b } else u) := by
  unfold findByEmail setActive
  rw [List.find?_map]
  have hp : ((fun u : User => u.email == toLowerStr email) ∘ fun u : User =>
      if u.uid == id then { u with isActive := b } else u) =
      (fun u : User => u.email == toLowerStr email) := by
    funext x
    by_cases hid : (x.uid == id) = true <;> simp [Function.comp, hid]
  rw [hp]

/-! ## C8 -/

/-- C8: for a stored user found by email, login with the correct password
fails with the 403 Forbidden "Account is deactivated" error (and never
with 401 Unauthorized) while the active flag is false, and succeeds after
the user is reactivated; with the flag already true it succeeds. -/
theorem C8_deactivated_login (users : List User) (email password : String)
    (now : Nat) (u : User) (hfind : findByEmail users email = some u)
    (hpw : comparePassword u password = true) :
    (u.isActive = false →
      login users email password now =
        .error (.forbidden "Account is deactivated") ∧
      (HttpErr.forbidden "Account is deactivated").statusCode = 403 ∧
      (∀ m, login users email password now ≠ .error (.unauthorized m)) ∧
      (∃ r, login (activateUser users u.uid) email password now = .ok r)) ∧
    (u.isActive = true → ∃ r, login users email password now = .ok r) := by
  constructor
  · intro hinactive
    refine ⟨by simp [login, hfind, hinactive], rfl,
      by simp [login, hfind, hinactive], ?_⟩
    have hfind2 : findByEmail (activateUser users u.uid) email =
        some { u with isActive := true } := by
      rw [activateUser, findByEmail_setActive, hfind]
      simp
    have hpw2 : comparePassword { u with isActive := true } password = true := hpw
    rcases hres : login (activateUser users u.uid) email password now with e | r
    · simp [login, hfind2, hpw2] at hres
    · exact ⟨r, rfl⟩
  · intro hactive
    rcases hres : login users email password now with e | r
    · simp [login, hfind, hactive, hpw] at hres
    · exact ⟨r, rfl⟩

/-- C8 witness: the theorem applied to the store holding the concrete
deactivated user and their correct password. -/
theorem C8_deactivated_login_witness :
    login [regUInactive] "A@B.c" "pw" 3 =
      .error (.forbidden "Account is deactivated") ∧
    (∃ r, login (activateUser [regUInactive] "id1") "A@B.c" "pw" 3 = .ok r) :=
  ⟨((C8_deactivated_login [regUInactive] "A@B.c" "pw" 3 regUInactive rfl
      rfl).1 rfl).1,
   ((C8_deactivated_login [regUInactive] "A@B.c" "pw" 3 regUInactive rfl
      rfl).1 rfl).2.2.2⟩

/-! ## C9 -/

/-- C9: when two registration requests carry emails equal after lowercase
normalization and the first succeeds, the second fails with the 409
Conflict error and creates no user, so the store still holds exactly the
one user the first request added and the case-insensitive email
uniqueness invariant is untouched. -/
theorem C9_duplicate_email (users : List User)
    (id1 n1 e1 p1 id2 n2 e2 p2 : String) (users' : List User) (u1 : User)
    (hcase : toLowerStr e1 = toLowerStr e2)
    (hreg : register users id1 n1 e1 p1 = .ok (users', u1)) :
    register users' id2 n2 e2 p2 = .error (.conflict "Email already registered") ∧
    (HttpErr.conflict "Email already registered").statusCode = 409 ∧
    (∀ r, register users' id2 n2 e2 p2 ≠ .ok r) ∧
    users'.length = users.length + 1 := by
  rcases hfe : findByEmail users e1 with _ | w
  · rw [register, hfe] at hreg
    simp only [Except.ok.injEq, Prod.mk.injEq] at hreg
    obtain ⟨husers, -⟩ := hreg
    have hfind2 : findByEmail users' e2 =
        some { uid := id1, name := n1, email := toLowerStr e1,
               passwordHash := hashPassword p1, role := .user,
               isActive := true, lastLogin := none } := by
      rw [← husers, findByEmail, List.find?_append]
      have h1 : users.find? (fun u => u.email == toLowerStr e2) = none := by
        rw [← hcase]
        exact hfe
      rw [h1]
      simp [hcase]
    refine ⟨by rw [register, hfind2], rfl, ?_, by rw [← husers]; simp⟩
    intro r
    rw [register, hfind2]
    simp
  · rw [register, hfe] at hreg
    exact Except.noConfusion hreg

/-- C9 witness: the theorem applied to registering A@B.c into the empty
store and then a@b.C into the resulting store. -/
theorem C9_duplicate_email_witness :
    register [regU] "id2" "N2" "a@b.C" "pw2" =
      .error (.conflict "Email already registered") ∧
    [regU].length = ([] : List User).length + 1 :=
  ⟨(C9_duplicate_email [] "id1" "N" "A@B.c" "pw" "id2" "N2" "a@b.C" "pw2"
      [regU] regU (by decide) rfl).1,
   (C9_duplicate_email [] "id1" "N" "A@B.c" "pw" "id2" "N2" "a@b.C" "pw2"
      [regU] regU (by decide) rfl).2.2.2⟩

/-! ## C10 -/

/-- C10: login checks the active flag before verifying the password, so
for a stored user whose active flag is false the result is the Forbidden
"Account is deactivated" error for every supplied password, correct or
wrong — the caller learns the account is deactivated without knowing its
password. -/
theorem C10_active_before_password (users : List User) (email : String)
    (now : Nat) (u : User) (hfind : findByEmail users email = some u)
    (hinactive : u.isActive = false) :
    ∀ password : String, login users email password now =
      .error (.forbidden "Account is deactivated") := by
  intro password
  simp [login, hfind, hinactive]

/-- C10 witness: the theorem applied to the concrete deactivated user with
the correct password and with a wrong one, both yielding the same 403. -/
theorem C10_active_before_password_witness :
    login [regUInactive] "a@b.c" "pw" 3 =
      .error (.forbidden "Account is deactivated") ∧
    login [regUInactive] "a@b.c" "wrong" 3 =
      .error (.forbidden "Account is deactivated") :=
  ⟨C10_active_before_password [regUInactive] "a@b.c" 3 regUInactive rfl rfl "pw",
   C10_active_before_password [regUInactive] "a@b.c" 3 regUInactive rfl rfl "wrong"⟩

end ShipTrack
